import Mathlib

/-!
Shallow embedding of the store-eligibility filter engine of
`src/tools/pd-simulator/simulator/statistics.go` (package `filter`), together
with proofs of the spec's testable properties.

Conventions of the embedding:
* Go `uint64` identifiers become `Nat` (no arithmetic is performed on them,
  only equality tests, so no wrap-around modelling is needed).
* `plan.Status` values are an inductive enumeration mirroring the status
  constants used by the file; `IsOK` tests for the OK status.
* Diagnostics (counters, collectors, `Scope`/`Type` tags and the write-only
  `Reason` field of `StoreStateFilter`) never influence a decision, so the
  embedding drops them; the decision logic is kept exactly.
* Functions of collaborator packages that are not under `src/`
  (`core.StoreInfo` accessors, `core.DistinctScore`, `placement`,
  `slice.AllOf`/`AnyOf`/`NoneOf`) are modelled from the spec; each such
  definition carries a doc comment starting with `Modelled from the spec:`.
-/

namespace PD

/-- `plan.Status` outcomes used by the filter file. `ok` is `statusOK`;
the other constructors mirror the `statusStore...` constants. -/
inductive PlanStatus where
  | ok
  | storeAlreadyHasPeer
  | storeLowSpace
  | storeNotMatchIsolation
  | storeRemoved
  | storeDown
  | storesRemoving
  | storeRejectLeader
  | storeDisconnected
  | storeBusy
  | storeRemoveLimit
  | storeAddLimit
  | storeSnapshotThrottled
  | storePendingPeerThrottled
  | storeNotMatchRule
  deriving DecidableEq, Repr

/-- `status.IsOK()`. -/
def PlanStatus.IsOK : PlanStatus → Bool
  | .ok => true
  | _ => false

def statusOK : PlanStatus := .ok
def statusStoreAlreadyHasPeer : PlanStatus := .storeAlreadyHasPeer
def statusStoreLowSpace : PlanStatus := .storeLowSpace
def statusStoreNotMatchIsolation : PlanStatus := .storeNotMatchIsolation
def statusStoreRemoved : PlanStatus := .storeRemoved
def statusStoreDown : PlanStatus := .storeDown
def statusStoresRemoving : PlanStatus := .storesRemoving
def statusStoreRejectLeader : PlanStatus := .storeRejectLeader
def statusStoreDisconnected : PlanStatus := .storeDisconnected
def statusStoreBusy : PlanStatus := .storeBusy
def statusStoreRemoveLimit : PlanStatus := .storeRemoveLimit
def statusStoreAddLimit : PlanStatus := .storeAddLimit
def statusStoreSnapshotThrottled : PlanStatus := .storeSnapshotThrottled
def statusStorePendingPeerThrottled : PlanStatus := .storePendingPeerThrottled
def statusStoreNotMatchRule : PlanStatus := .storeNotMatchRule

/-- Modelled from the spec: `core.StoreInfo` is not under `src/`; the spec's
data model lists the attributes consumed by the filters (identity, label
mapping, removed/removing/disconnected/busy flags, down-duration,
used-space ratio, pending-peer count, send/receive snapshot counts,
leader-transfer-allowed flag, slow-store-evicted flag, store-limit
availability for add/remove peer). -/
structure StoreInfo where
  id : Nat
  labels : List (String × String)
  removed : Bool
  removing : Bool
  disconnected : Bool
  busy : Bool
  downTime : Nat
  usedRatio : ℚ
  pendingPeerCount : Nat
  sendingSnapCount : Nat
  receivingSnapCount : Nat
  allowLeaderTransfer : Bool
  evictedAsSlowStore : Bool
  availableAddPeer : Bool
  availableRemovePeer : Bool
  deriving DecidableEq, Repr

/-- `store.GetID()`. -/
def StoreInfo.GetID (s : StoreInfo) : Nat := s.id

/-- Modelled from the spec: `core.StoreInfo.GetLabelValue` — look up a label
key in the store's label mapping, empty string when absent. -/
def StoreInfo.GetLabelValue (s : StoreInfo) (key : String) : String :=
  ((s.labels.lookup key).getD "")

/-- Modelled from the spec: `core.StoreInfo.IsLowSpace` — the store's
used-space ratio exceeds the configured low-space ratio. -/
def StoreInfo.IsLowSpace (s : StoreInfo) (lowSpaceRatio : ℚ) : Bool :=
  lowSpaceRatio < s.usedRatio

/-- Modelled from the spec: global scheduling options
(`config.PersistOptions`) consumed by the filters: max down time, max
snapshot count, max pending peers, low-space ratio, location labels,
placement-rules-enabled flag, label properties. The reject-leader label
property check is kept abstract as a predicate over a store's labels. -/
structure PersistOptions where
  maxStoreDownTime : Nat
  maxSnapshotCount : Nat
  maxPendingPeerCount : Nat
  lowSpaceRatio : ℚ
  locationLabels : List String
  placementRulesEnabled : Bool
  rejectLeaderProperty : List (String × String) → Bool

def PersistOptions.GetMaxStoreDownTime (o : PersistOptions) : Nat := o.maxStoreDownTime
def PersistOptions.GetMaxSnapshotCount (o : PersistOptions) : Nat := o.maxSnapshotCount
def PersistOptions.GetMaxPendingPeerCount (o : PersistOptions) : Nat := o.maxPendingPeerCount
def PersistOptions.GetLowSpaceRatio (o : PersistOptions) : ℚ := o.lowSpaceRatio
def PersistOptions.GetLocationLabels (o : PersistOptions) : List String := o.locationLabels
def PersistOptions.IsPlacementRulesEnabled (o : PersistOptions) : Bool := o.placementRulesEnabled

/-- `opts.CheckLabelProperty(config.RejectLeader, store.GetLabels())`,
abstracted as the options' reject-leader predicate on the labels. -/
def PersistOptions.CheckRejectLeader (o : PersistOptions) (labels : List (String × String)) : Bool :=
  o.rejectLeaderProperty labels

/-- The `Filter` interface: a pair of decision functions. The `Scope`/`Type`
diagnostic tags are dropped (they never influence a decision). -/
structure Filter where
  Source : PersistOptions → StoreInfo → PlanStatus
  Target : PersistOptions → StoreInfo → PlanStatus

/-- Per-store conjunction of `Target` checks in chain order, short-circuiting
at the first non-OK filter: the body of the closure that
`SelectTargetStores` passes to `filterStoresBy` (via `slice.AllOf`). -/
def targetChainAccepts (opt : PersistOptions) (s : StoreInfo) : List Filter → Bool
  | [] => true
  | f :: rest =>
    if (f.Target opt s).IsOK then targetChainAccepts opt s rest else false

/-- Per-store disjunction of failing `Target` checks in chain order,
short-circuiting at the first non-OK filter: the body of the closure that
`SelectUnavailableTargetStores` passes to `filterStoresBy` (via
`slice.AnyOf` over `!status.IsOK()`). -/
def targetChainRejects (opt : PersistOptions) (s : StoreInfo) : List Filter → Bool
  | [] => false
  | f :: rest =>
    if (f.Target opt s).IsOK then targetChainRejects opt s rest else true

/-- Number of `Target` calls `targetChainAccepts` performs on a chain:
instrumentation of the short-circuit, used to state that filters after the
first non-OK one are not evaluated. -/
def targetEvalCount (opt : PersistOptions) (s : StoreInfo) : List Filter → Nat
  | [] => 0
  | f :: rest =>
    if (f.Target opt s).IsOK then targetEvalCount opt s rest + 1 else 1

/-- `filterStoresBy`: keep the stores satisfying the predicate, in order. -/
def filterStoresBy (stores : List StoreInfo) (keepPred : StoreInfo → Bool) : List StoreInfo :=
  stores.filter keepPred

/-- `SelectTargetStores` (diagnostics dropped). -/
def SelectTargetStores (stores : List StoreInfo) (filters : List Filter)
    (opt : PersistOptions) : List StoreInfo :=
  match filters with
  | [] => stores
  | _ => filterStoresBy stores (fun s => targetChainAccepts opt s filters)

/-- `SelectUnavailableTargetStores` (diagnostics dropped). -/
def SelectUnavailableTargetStores (stores : List StoreInfo) (filters : List Filter)
    (opt : PersistOptions) : List StoreInfo :=
  filterStoresBy stores (fun s => targetChainRejects opt s filters)

/-- `SelectSourceStores` (diagnostics dropped). -/
def sourceChainAccepts (opt : PersistOptions) (s : StoreInfo) : List Filter → Bool
  | [] => true
  | f :: rest =>
    if (f.Source opt s).IsOK then sourceChainAccepts opt s rest else false

def SelectSourceStores (stores : List StoreInfo) (filters : List Filter)
    (opt : PersistOptions) : List StoreInfo :=
  filterStoresBy stores (fun s => sourceChainAccepts opt s filters)

theorem targetChainAccepts_iff (opt : PersistOptions) (s : StoreInfo) :
    ∀ F : List Filter,
      targetChainAccepts opt s F = true ↔ ∀ f ∈ F, (f.Target opt s).IsOK = true := by
  intro F
  induction F with
  | nil => simp [targetChainAccepts]
  | cons f rest ih =>
    simp only [targetChainAccepts]
    by_cases h : (f.Target opt s).IsOK = true
    · simp [h, ih]
    · rw [if_neg h]
      constructor
      · intro hfalse; exact absurd hfalse (by simp)
      · intro hall; exact absurd (hall f (List.mem_cons_self f rest)) h

theorem targetChainRejects_eq_not_accepts (opt : PersistOptions) (s : StoreInfo) :
    ∀ F : List Filter, targetChainRejects opt s F = !targetChainAccepts opt s F := by
  intro F
  induction F with
  | nil => simp [targetChainRejects, targetChainAccepts]
  | cons f rest ih =>
    by_cases h : (f.Target opt s).IsOK = true
    · simp [targetChainRejects, targetChainAccepts, h, ih]
    · simp [Bool.not_eq_true] at h
      simp [targetChainRejects, targetChainAccepts, h]

theorem targetEvalCount_spec (opt : PersistOptions) (s : StoreInfo) :
    ∀ F : List Filter,
      targetEvalCount opt s F =
        min ((F.takeWhile (fun f => (f.Target opt s).IsOK)).length + 1) F.length := by
  intro F
  induction F with
  | nil => simp [targetEvalCount]
  | cons f rest ih =>
    by_cases h : (f.Target opt s).IsOK = true
    · simp [targetEvalCount, List.takeWhile_cons, h, ih, List.length_cons]
      omega
    · rw [Bool.not_eq_true] at h
      simp only [targetEvalCount, List.takeWhile_cons, h, Bool.false_eq_true, if_false,
        List.length_nil, List.length_cons]
      omega

theorem SelectTargetStores_of_ne_nil (stores : List StoreInfo) (F : List Filter)
    (opt : PersistOptions) (hF : F ≠ []) :
    SelectTargetStores stores F opt =
      stores.filter (fun s => targetChainAccepts opt s F) := by
  cases F with
  | nil => exact absurd rfl hF
  | cons f rest => rfl

/-- Sample options used by the concrete witnesses below. -/
def optA : PersistOptions :=
  { maxStoreDownTime := 10
    maxSnapshotCount := 3
    maxPendingPeerCount := 16
    lowSpaceRatio := 4 / 5
    locationLabels := ["zone", "host"]
    placementRulesEnabled := false
    rejectLeaderProperty := fun _ => false }

/-- A healthy store on zone `z1`, used by the concrete witnesses below. -/
def storeA : StoreInfo :=
  { id := 1
    labels := [("zone", "z1"), ("host", "h1")]
    removed := false
    removing := false
    disconnected := false
    busy := false
    downTime := 0
    usedRatio := 0
    pendingPeerCount := 0
    sendingSnapCount := 0
    receivingSnapCount := 0
    allowLeaderTransfer := true
    evictedAsSlowStore := false
    availableAddPeer := true
    availableRemovePeer := true }

/-- A healthy store on zone `z2`, used by the concrete witnesses below. -/
def storeB : StoreInfo :=
  { storeA with id := 2, labels := [("zone", "z2"), ("host", "h2")] }

/-- A concrete filter whose `Target` rejects exactly the store with id 2. -/
def excludeTwoFilter : Filter :=
  { Source := fun _ _ => statusOK
    Target := fun _ s => if s.id = 2 then statusStoreAlreadyHasPeer else statusOK }

/-- C1: a store `s` is in `SelectTargetStores stores F opt` iff it is in
`stores` and every filter's `Target` returns OK on it; the result is an
order-preserving subsequence of the input; and for each store the chain is
evaluated only up to (and including) the first filter returning non-OK. -/
theorem selectTargetStores_characterization
    (stores : List StoreInfo) (F : List Filter) (opt : PersistOptions) (s : StoreInfo)
    (hF : F ≠ []) :
    (s ∈ SelectTargetStores stores F opt ↔
      s ∈ stores ∧ ∀ f ∈ F, (f.Target opt s).IsOK = true)
    ∧ (SelectTargetStores stores F opt).Sublist stores
    ∧ targetEvalCount opt s F =
        min ((F.takeWhile (fun f => (f.Target opt s).IsOK)).length + 1) F.length := by
  rw [SelectTargetStores_of_ne_nil stores F opt hF]
  refine ⟨?_, List.filter_sublist stores, targetEvalCount_spec opt s F⟩
  rw [List.mem_filter]
  constructor
  · rintro ⟨hmem, hacc⟩
    exact ⟨hmem, (targetChainAccepts_iff opt s F).1 hacc⟩
  · rintro ⟨hmem, hall⟩
    exact ⟨hmem, (targetChainAccepts_iff opt s F).2 hall⟩

theorem selectTargetStores_characterization_witness :
    (storeA ∈ SelectTargetStores [storeA, storeB] [excludeTwoFilter] optA ↔
      storeA ∈ [storeA, storeB] ∧
        ∀ f ∈ [excludeTwoFilter], (f.Target optA storeA).IsOK = true)
    ∧ (SelectTargetStores [storeA, storeB] [excludeTwoFilter] optA).Sublist [storeA, storeB]
    ∧ targetEvalCount optA storeA [excludeTwoFilter] =
        min (([excludeTwoFilter].takeWhile
            (fun f => (f.Target optA storeA).IsOK)).length + 1)
          [excludeTwoFilter].length :=
  selectTargetStores_characterization [storeA, storeB] [excludeTwoFilter] optA storeA
    (by simp)

/-- C2: for a non-empty filter chain, every store of the input list lands in
exactly one of `SelectTargetStores` and `SelectUnavailableTargetStores`. -/
theorem selectTarget_partition
    (stores : List StoreInfo) (F : List Filter) (opt : PersistOptions) (s : StoreInfo)
    (hF : F ≠ []) (hs : s ∈ stores) :
    (s ∈ SelectTargetStores stores F opt ∧
        s ∉ SelectUnavailableTargetStores stores F opt)
    ∨ (s ∉ SelectTargetStores stores F opt ∧
        s ∈ SelectUnavailableTargetStores stores F opt) := by
  rw [SelectTargetStores_of_ne_nil stores F opt hF]
  unfold SelectUnavailableTargetStores filterStoresBy
  by_cases hacc : targetChainAccepts opt s F = true
  · left
    constructor
    · exact List.mem_filter.2 ⟨hs, hacc⟩
    · intro hmem
      have h2 := (List.mem_filter.1 hmem).2
      rw [targetChainRejects_eq_not_accepts, hacc] at h2
      exact absurd h2 (by simp)
  · right
    constructor
    · intro hmem
      exact absurd ((List.mem_filter.1 hmem).2) hacc
    · refine List.mem_filter.2 ⟨hs, ?_⟩
      rw [targetChainRejects_eq_not_accepts]
      simp [Bool.not_eq_true] at hacc
      simp [hacc]

theorem selectTarget_partition_witness :
    (storeB ∈ SelectTargetStores [storeA, storeB] [excludeTwoFilter] optA ∧
        storeB ∉ SelectUnavailableTargetStores [storeA, storeB] [excludeTwoFilter] optA)
    ∨ (storeB ∉ SelectTargetStores [storeA, storeB] [excludeTwoFilter] optA ∧
        storeB ∈ SelectUnavailableTargetStores [storeA, storeB] [excludeTwoFilter] optA) :=
  selectTarget_partition [storeA, storeB] [excludeTwoFilter] optA storeB
    (by simp) (by simp)

/-- C3: an empty filter chain makes `SelectTargetStores` return the input
store list unchanged. -/
theorem selectTargetStores_empty_chain (stores : List StoreInfo) (opt : PersistOptions) :
    SelectTargetStores stores [] opt = stores := rfl

/-! ### DistinctScoreFilter -/

/-- Base of the per-replica distinctness contribution. -/
def replicaBaseScore : Nat := 100

/-- Modelled from the spec: the per-replica contribution of
`core.DistinctScore` (not under `src/`). The spec describes a hierarchical
score over the ordered location labels that rewards diversity at
higher-priority labels and penalises collocation: a replica store
contributes `replicaBaseScore ^ (k - i - 1)` where `i` is the first label
level (of `k` levels) at which its value differs from the candidate store's,
and contributes nothing when it matches the candidate on the full tuple. -/
def storeDistinctContribution (labels : List String) (s other : StoreInfo) : Nat :=
  match labels.findIdx? (fun l => s.GetLabelValue l != other.GetLabelValue l) with
  | none => 0
  | some i => replicaBaseScore ^ (labels.length - i - 1)

/-- Modelled from the spec: `core.DistinctScore(labels, stores, other)` —
the sum of the contributions of the given replica stores, skipping stores
that carry the candidate's own identity. -/
def DistinctScore (labels : List String) (stores : List StoreInfo) (other : StoreInfo) : Nat :=
  ((stores.filter (fun s => s.GetID != other.GetID)).map
    (fun s => storeDistinctContribution labels s other)).sum

/-- `distinctScoreFilter`. -/
structure distinctScoreFilter where
  scope : String
  labels : List String
  stores : List StoreInfo
  policy : String
  safeScore : Nat
  srcStore : Nat
  deriving Repr

def locationSafeguard : String := "safeguard"
def locationImprove : String := "improve"

/-- `newDistinctScoreFilter`: drop the source from the replica set and
precompute the baseline score. -/
def newDistinctScoreFilter (scope : String) (labels : List String)
    (stores : List StoreInfo) (source : StoreInfo) (policy : String) : distinctScoreFilter :=
  let newStores := stores.filter (fun s => s.GetID != source.GetID)
  { scope := scope
    labels := labels
    stores := newStores
    policy := policy
    safeScore := DistinctScore labels newStores source
    srcStore := source.GetID }

def NewLocationSafeguard (scope : String) (labels : List String)
    (stores : List StoreInfo) (source : StoreInfo) : distinctScoreFilter :=
  newDistinctScoreFilter scope labels stores source locationSafeguard

def NewLocationImprover (scope : String) (labels : List String)
    (stores : List StoreInfo) (source : StoreInfo) : distinctScoreFilter :=
  newDistinctScoreFilter scope labels stores source locationImprove

def distinctScoreFilter.Source (_ : distinctScoreFilter) (_ : PersistOptions)
    (_ : StoreInfo) : PlanStatus := statusOK

/-- `distinctScoreFilter.Target`: safeguard accepts `score >= safeScore`,
improve accepts `score > safeScore`, anything else falls through to the
isolation-mismatch status. -/
def distinctScoreFilter.Target (f : distinctScoreFilter) (_ : PersistOptions)
    (store : StoreInfo) : PlanStatus :=
  let score := DistinctScore f.labels f.stores store
  if f.policy = locationSafeguard then
    if score ≥ f.safeScore then statusOK else statusStoreNotMatchIsolation
  else if f.policy = locationImprove then
    if score > f.safeScore then statusOK else statusStoreNotMatchIsolation
  else
    statusStoreNotMatchIsolation

def distinctScoreFilter.GetSourceStoreID (f : distinctScoreFilter) : Nat := f.srcStore

/-- C4 counterexample: the safeguard filter built from replica set
`[storeA]` with source `storeA` ACCEPTS the candidate that shares
`storeA`'s full label tuple but has id 2 — the score stays equal to the
baseline — while the claim requires rejection. -/
theorem distinctScore_safeguard_accepts_same_labels_cex :
    ((NewLocationSafeguard "test" ["zone", "host"] [storeA] storeA).Target optA
      { storeA with id := 2 }).IsOK = true := by decide

theorem findIdx?_congr {α : Type} (p q : α → Bool) :
    ∀ (l : List α) (i : Nat), (∀ a ∈ l, p a = q a) → l.findIdx? p i = l.findIdx? q i := by
  intro l
  induction l with
  | nil => intro i _; rfl
  | cons x xs ih =>
    intro i h
    rw [List.findIdx?_cons, List.findIdx?_cons, h x (List.mem_cons_self x xs)]
    by_cases hq : q x = true
    · simp [hq]
    · simp only [Bool.not_eq_true] at hq
      simp only [hq, Bool.false_eq_true, if_false]
      exact ih (i + 1) (fun a ha => h a (List.mem_cons_of_mem x ha))

theorem storeDistinctContribution_congr (labels : List String) (s cand source : StoreInfo)
    (hlab : ∀ l ∈ labels, cand.GetLabelValue l = source.GetLabelValue l) :
    storeDistinctContribution labels s cand = storeDistinctContribution labels s source := by
  unfold storeDistinctContribution
  rw [findIdx?_congr _ _ labels 0 (fun l hl => by rw [hlab l hl])]

theorem sublist_sum_le (l₁ l₂ : List Nat) (h : l₁.Sublist l₂) : l₁.sum ≤ l₂.sum := by
  induction h with
  | slnil => simp
  | cons a _ ih => simp only [List.sum_cons]; omega
  | cons₂ a _ ih => simp only [List.sum_cons]; omega

/-- A candidate sharing the source's full label tuple never scores above the
baseline: removing the candidate's own id from the replica set can only drop
contributions, and every remaining replica contributes the same against the
candidate as against the source. -/
theorem distinctScore_le_baseline (labels : List String) (stores : List StoreInfo)
    (source cand : StoreInfo)
    (hlab : ∀ l ∈ labels, cand.GetLabelValue l = source.GetLabelValue l) :
    DistinctScore labels (stores.filter (fun s => s.GetID != source.GetID)) cand ≤
      DistinctScore labels (stores.filter (fun s => s.GetID != source.GetID)) source := by
  unfold DistinctScore
  set newStores := stores.filter (fun s => s.GetID != source.GetID) with hns
  have hcongr :
      (newStores.filter (fun s => s.GetID != cand.GetID)).map
          (fun s => storeDistinctContribution labels s cand) =
        (newStores.filter (fun s => s.GetID != cand.GetID)).map
          (fun s => storeDistinctContribution labels s source) :=
    List.map_congr_left
      (fun s _ => storeDistinctContribution_congr labels s cand source hlab)
  rw [hcongr]
  have hidem : newStores.filter (fun s => s.GetID != source.GetID) = newStores := by
    rw [hns, List.filter_filter]
    simp [Bool.and_self]
  rw [hidem]
  exact sublist_sum_le _ _
    ((List.filter_sublist newStores).map (fun s => storeDistinctContribution labels s source))

/-- C4 (amended): the claim holds for the IMPROVE policy, with no exception:
any candidate whose label values on all the location labels equal the
source's (the source itself included) is rejected by the improve filter's
`Target`, since its score cannot exceed the baseline. The safeguard filter,
by contrast, accepts such a candidate when the score ties the baseline (see
the counterexample above). -/
theorem distinctScore_improve_rejects_same_labels
    (scope : String) (labels : List String) (stores : List StoreInfo)
    (source cand : StoreInfo) (opt : PersistOptions)
    (hlab : ∀ l ∈ labels, cand.GetLabelValue l = source.GetLabelValue l) :
    ((newDistinctScoreFilter scope labels stores source locationImprove).Target opt
      cand).IsOK = false := by
  have hle := distinctScore_le_baseline labels stores source cand hlab
  simp only [newDistinctScoreFilter, distinctScoreFilter.Target]
  rw [if_neg (by decide : ¬(locationImprove = locationSafeguard)),
    if_pos trivial, if_neg (by omega)]
  rfl

theorem distinctScore_improve_rejects_same_labels_witness :
    ((newDistinctScoreFilter "test" ["zone", "host"] [storeA, storeB] storeA
        locationImprove).Target optA { storeA with id := 3 }).IsOK = false :=
  distinctScore_improve_rejects_same_labels "test" ["zone", "host"] [storeA, storeB]
    storeA { storeA with id := 3 } optA (by decide)

/-! ### StoreStateFilter -/

/-- `storelimit` kinds used by `store.IsAvailable`. -/
inductive StoreLimitType where
  | AddPeer
  | RemovePeer
  deriving DecidableEq, Repr

/-- Modelled from the spec: `core.StoreInfo` accessors (the store's
rate-limit availability per limit kind). -/
def StoreInfo.IsAvailable (s : StoreInfo) : StoreLimitType → Bool
  | .AddPeer => s.availableAddPeer
  | .RemovePeer => s.availableRemovePeer

def StoreInfo.IsRemoved (s : StoreInfo) : Bool := s.removed
def StoreInfo.IsRemoving (s : StoreInfo) : Bool := s.removing
def StoreInfo.IsDisconnected (s : StoreInfo) : Bool := s.disconnected
def StoreInfo.IsBusy (s : StoreInfo) : Bool := s.busy
def StoreInfo.DownTime (s : StoreInfo) : Nat := s.downTime
def StoreInfo.AllowLeaderTransfer (s : StoreInfo) : Bool := s.allowLeaderTransfer
def StoreInfo.EvictedAsSlowStore (s : StoreInfo) : Bool := s.evictedAsSlowStore
def StoreInfo.GetPendingPeerCount (s : StoreInfo) : Nat := s.pendingPeerCount
def StoreInfo.GetSendingSnapCount (s : StoreInfo) : Nat := s.sendingSnapCount
def StoreInfo.GetReceivingSnapCount (s : StoreInfo) : Nat := s.receivingSnapCount
def StoreInfo.GetLabels (s : StoreInfo) : List (String × String) := s.labels

/-- `StoreStateFilter`. The `Reason` field is a write-only diagnostic tag
(only read back through the `Type()` tag, never by a decision), so the
embedding drops it. -/
structure StoreStateFilter where
  ActionScope : String
  TransferLeader : Bool
  MoveRegion : Bool
  ScatterRegion : Bool
  AllowTemporaryStates : Bool

def StoreStateFilter.isRemoved (_ : StoreStateFilter) (_ : PersistOptions)
    (store : StoreInfo) : PlanStatus :=
  if store.IsRemoved then statusStoreRemoved else statusOK

def StoreStateFilter.isDown (_ : StoreStateFilter) (opt : PersistOptions)
    (store : StoreInfo) : PlanStatus :=
  if store.DownTime > opt.GetMaxStoreDownTime then statusStoreDown else statusOK

def StoreStateFilter.isRemoving (_ : StoreStateFilter) (_ : PersistOptions)
    (store : StoreInfo) : PlanStatus :=
  if store.IsRemoving then statusStoresRemoving else statusOK

def StoreStateFilter.pauseLeaderTransfer (_ : StoreStateFilter) (_ : PersistOptions)
    (store : StoreInfo) : PlanStatus :=
  if !store.AllowLeaderTransfer then statusStoreRejectLeader else statusOK

def StoreStateFilter.slowStoreEvicted (_ : StoreStateFilter) (_ : PersistOptions)
    (store : StoreInfo) : PlanStatus :=
  if store.EvictedAsSlowStore then statusStoreRejectLeader else statusOK

def StoreStateFilter.isDisconnected (f : StoreStateFilter) (_ : PersistOptions)
    (store : StoreInfo) : PlanStatus :=
  if !f.AllowTemporaryStates && store.IsDisconnected then statusStoreDisconnected
  else statusOK

def StoreStateFilter.isBusy (f : StoreStateFilter) (_ : PersistOptions)
    (store : StoreInfo) : PlanStatus :=
  if !f.AllowTemporaryStates && store.IsBusy then statusStoreBusy else statusOK

def StoreStateFilter.exceedRemoveLimit (f : StoreStateFilter) (_ : PersistOptions)
    (store : StoreInfo) : PlanStatus :=
  if !f.AllowTemporaryStates && !store.IsAvailable .RemovePeer then statusStoreRemoveLimit
  else statusOK

def StoreStateFilter.exceedAddLimit (f : StoreStateFilter) (_ : PersistOptions)
    (store : StoreInfo) : PlanStatus :=
  if !f.AllowTemporaryStates && !store.IsAvailable .AddPeer then statusStoreAddLimit
  else statusOK

def StoreStateFilter.tooManySnapshots (f : StoreStateFilter) (opt : PersistOptions)
    (store : StoreInfo) : PlanStatus :=
  if !f.AllowTemporaryStates &&
      (store.GetSendingSnapCount > opt.GetMaxSnapshotCount ||
        store.GetReceivingSnapCount > opt.GetMaxSnapshotCount) then
    statusStoreSnapshotThrottled
  else statusOK

def StoreStateFilter.tooManyPendingPeers (f : StoreStateFilter) (opt : PersistOptions)
    (store : StoreInfo) : PlanStatus :=
  if !f.AllowTemporaryStates &&
      decide (opt.GetMaxPendingPeerCount > 0) &&
      decide (store.GetPendingPeerCount > opt.GetMaxPendingPeerCount) then
    statusStorePendingPeerThrottled
  else statusOK

def StoreStateFilter.hasRejectLeaderProperty (_ : StoreStateFilter) (opts : PersistOptions)
    (store : StoreInfo) : PlanStatus :=
  if opts.CheckRejectLeader store.GetLabels then statusStoreRejectLeader else statusOK

/-- The five scenario tags (`iota` constants). -/
def leaderSource : Nat := 0
def regionSource : Nat := 1
def leaderTarget : Nat := 2
def regionTarget : Nat := 3
def scatterRegionTarget : Nat := 4

/-- The loop of `anyConditionMatch`: first non-OK condition wins. -/
def runConditions (opt : PersistOptions) (store : StoreInfo) :
    List (PersistOptions → StoreInfo → PlanStatus) → PlanStatus
  | [] => statusOK
  | cf :: rest =>
    let status := cf opt store
    if status.IsOK then runConditions opt store rest else status

/-- `StoreStateFilter.anyConditionMatch`: the condition table. An
unrecognized scenario tag selects no conditions. -/
def StoreStateFilter.anyConditionMatch (f : StoreStateFilter) (typ : Nat)
    (opt : PersistOptions) (store : StoreInfo) : PlanStatus :=
  let funcs : List (PersistOptions → StoreInfo → PlanStatus) :=
    match typ with
    | 0 => [f.isRemoved, f.isDown, f.pauseLeaderTransfer, f.isDisconnected]
    | 1 => [f.isBusy, f.exceedRemoveLimit, f.tooManySnapshots]
    | 2 => [f.isRemoved, f.isRemoving, f.isDown, f.pauseLeaderTransfer,
        f.slowStoreEvicted, f.isDisconnected, f.isBusy, f.hasRejectLeaderProperty]
    | 3 => [f.isRemoved, f.isRemoving, f.isDown, f.isDisconnected, f.isBusy,
        f.exceedAddLimit, f.tooManySnapshots, f.tooManyPendingPeers]
    | 4 => [f.isRemoved, f.isRemoving, f.isDown, f.isDisconnected, f.isBusy]
    | _ => []
  runConditions opt store funcs

/-- `StoreStateFilter.Source`. -/
def StoreStateFilter.Source (f : StoreStateFilter) (opts : PersistOptions)
    (store : StoreInfo) : PlanStatus :=
  let status1 := if f.TransferLeader then f.anyConditionMatch leaderSource opts store
    else statusOK
  if !status1.IsOK then status1
  else
    let status2 := if f.MoveRegion then f.anyConditionMatch regionSource opts store
      else statusOK
    if !status2.IsOK then status2 else statusOK

/-- `StoreStateFilter.Target`. -/
def StoreStateFilter.Target (f : StoreStateFilter) (opts : PersistOptions)
    (store : StoreInfo) : PlanStatus :=
  let status1 := if f.TransferLeader then f.anyConditionMatch leaderTarget opts store
    else statusOK
  if !status1.IsOK then status1
  else
    let status2 := if f.MoveRegion && f.ScatterRegion then
        f.anyConditionMatch scatterRegionTarget opts store
      else statusOK
    if !status2.IsOK then status2
    else
      let status3 := if f.MoveRegion && !f.ScatterRegion then
          f.anyConditionMatch regionTarget opts store
        else statusOK
      if !status3.IsOK then status3 else statusOK

theorem runConditions_isOK_iff (opt : PersistOptions) (store : StoreInfo) :
    ∀ conds : List (PersistOptions → StoreInfo → PlanStatus),
      (runConditions opt store conds).IsOK = true ↔
        ∀ c ∈ conds, (c opt store).IsOK = true := by
  intro conds
  induction conds with
  | nil => simp [runConditions, statusOK, PlanStatus.IsOK]
  | cons c rest ih =>
    simp only [runConditions]
    by_cases h : (c opt store).IsOK = true
    · simp [h, ih]
    · rw [if_neg (by simp [h])]
      constructor
      · intro hok; exact absurd hok h
      · intro hall; exact absurd (hall c (List.mem_cons_self c rest)) h

theorem runConditions_not_ok (opt : PersistOptions) (store : StoreInfo)
    (conds : List (PersistOptions → StoreInfo → PlanStatus))
    (c : PersistOptions → StoreInfo → PlanStatus) (hc : c ∈ conds)
    (hfail : (c opt store).IsOK = false) :
    (runConditions opt store conds).IsOK = false := by
  cases h : (runConditions opt store conds).IsOK
  · rfl
  · have := (runConditions_isOK_iff opt store conds).1 h c hc
    rw [hfail] at this
    exact absurd this (by simp)

/-- C5: with `AllowTemporaryStates` set, (a) a store that is nominal on all
permanent conditions passes `Source` and `Target` no matter its temporary
state (disconnected, busy, rate limits, snapshot count, pending peers), and
(b) each permanent condition still rejects in every scenario whose
condition list contains it. -/
theorem storeStateFilter_allowTemporary
    (f : StoreStateFilter) (opt : PersistOptions) (s : StoreInfo)
    (hallow : f.AllowTemporaryStates = true) :
    ((s.IsRemoved = false ∧ s.IsRemoving = false ∧
        s.DownTime ≤ opt.GetMaxStoreDownTime ∧ s.AllowLeaderTransfer = true ∧
        s.EvictedAsSlowStore = false ∧ opt.CheckRejectLeader s.GetLabels = false) →
      (f.Source opt s).IsOK = true ∧ (f.Target opt s).IsOK = true)
    ∧ (s.IsRemoved = true →
        (f.anyConditionMatch leaderSource opt s).IsOK = false ∧
        (f.anyConditionMatch leaderTarget opt s).IsOK = false ∧
        (f.anyConditionMatch regionTarget opt s).IsOK = false ∧
        (f.anyConditionMatch scatterRegionTarget opt s).IsOK = false)
    ∧ (s.IsRemoving = true →
        (f.anyConditionMatch leaderTarget opt s).IsOK = false ∧
        (f.anyConditionMatch regionTarget opt s).IsOK = false ∧
        (f.anyConditionMatch scatterRegionTarget opt s).IsOK = false)
    ∧ (opt.GetMaxStoreDownTime < s.DownTime →
        (f.anyConditionMatch leaderSource opt s).IsOK = false ∧
        (f.anyConditionMatch leaderTarget opt s).IsOK = false ∧
        (f.anyConditionMatch regionTarget opt s).IsOK = false ∧
        (f.anyConditionMatch scatterRegionTarget opt s).IsOK = false)
    ∧ (s.AllowLeaderTransfer = false →
        (f.anyConditionMatch leaderSource opt s).IsOK = false ∧
        (f.anyConditionMatch leaderTarget opt s).IsOK = false)
    ∧ (s.EvictedAsSlowStore = true →
        (f.anyConditionMatch leaderTarget opt s).IsOK = false)
    ∧ (opt.CheckRejectLeader s.GetLabels = true →
        (f.anyConditionMatch leaderTarget opt s).IsOK = false) := by
  have hDis : f.isDisconnected opt s = statusOK := by
    simp [StoreStateFilter.isDisconnected, hallow]
  have hBusy : f.isBusy opt s = statusOK := by
    simp [StoreStateFilter.isBusy, hallow]
  have hRem : f.exceedRemoveLimit opt s = statusOK := by
    simp [StoreStateFilter.exceedRemoveLimit, hallow]
  have hAdd : f.exceedAddLimit opt s = statusOK := by
    simp [StoreStateFilter.exceedAddLimit, hallow]
  have hSnap : f.tooManySnapshots opt s = statusOK := by
    simp [StoreStateFilter.tooManySnapshots, hallow]
  have hPend : f.tooManyPendingPeers opt s = statusOK := by
    simp [StoreStateFilter.tooManyPendingPeers, hallow]
  refine ⟨?_, ?_, ?_, ?_, ?_, ?_, ?_⟩
  · rintro ⟨h1, h2, h3, h4, h5, h6⟩
    have hR : f.isRemoved opt s = statusOK := by
      simp [StoreStateFilter.isRemoved, StoreInfo.IsRemoved] at h1 ⊢
      simp [h1]
    have hRg : f.isRemoving opt s = statusOK := by
      simp [StoreStateFilter.isRemoving, StoreInfo.IsRemoving] at h2 ⊢
      simp [h2]
    have hD : f.isDown opt s = statusOK := by
      unfold StoreStateFilter.isDown
      rw [if_neg (by omega)]
    have hP : f.pauseLeaderTransfer opt s = statusOK := by
      simp [StoreStateFilter.pauseLeaderTransfer, h4]
    have hSl : f.slowStoreEvicted opt s = statusOK := by
      simp [StoreStateFilter.slowStoreEvicted, h5]
    have hRj : f.hasRejectLeaderProperty opt s = statusOK := by
      simp [StoreStateFilter.hasRejectLeaderProperty, h6]
    have h0 : f.anyConditionMatch leaderSource opt s = statusOK := by
      simp [StoreStateFilter.anyConditionMatch, leaderSource, runConditions,
        hR, hD, hP, hDis, statusOK, PlanStatus.IsOK]
    have h1s : f.anyConditionMatch regionSource opt s = statusOK := by
      simp [StoreStateFilter.anyConditionMatch, regionSource, runConditions,
        hBusy, hRem, hSnap, statusOK, PlanStatus.IsOK]
    have h2t : f.anyConditionMatch leaderTarget opt s = statusOK := by
      simp [StoreStateFilter.anyConditionMatch, leaderTarget, runConditions,
        hR, hRg, hD, hP, hSl, hDis, hBusy, hRj, statusOK, PlanStatus.IsOK]
    have h3t : f.anyConditionMatch regionTarget opt s = statusOK := by
      simp [StoreStateFilter.anyConditionMatch, regionTarget, runConditions,
        hR, hRg, hD, hDis, hBusy, hAdd, hSnap, hPend, statusOK, PlanStatus.IsOK]
    have h4t : f.anyConditionMatch scatterRegionTarget opt s = statusOK := by
      simp [StoreStateFilter.anyConditionMatch, scatterRegionTarget, runConditions,
        hR, hRg, hD, hDis, hBusy, statusOK, PlanStatus.IsOK]
    constructor
    · by_cases hT : f.TransferLeader = true <;> by_cases hM : f.MoveRegion = true <;>
        simp [StoreStateFilter.Source, hT, hM, h0, h1s, statusOK, PlanStatus.IsOK]
    · by_cases hT : f.TransferLeader = true <;> by_cases hM : f.MoveRegion = true <;>
        by_cases hSc : f.ScatterRegion = true <;>
        simp [StoreStateFilter.Target, hT, hM, hSc, h2t, h3t, h4t,
          statusOK, PlanStatus.IsOK]
  · intro hrem
    have hfail : (f.isRemoved opt s).IsOK = false := by
      simp [StoreStateFilter.isRemoved, hrem, statusStoreRemoved, PlanStatus.IsOK]
    refine ⟨?_, ?_, ?_, ?_⟩ <;>
      · simp only [StoreStateFilter.anyConditionMatch, leaderSource, leaderTarget,
          regionTarget, scatterRegionTarget]
        exact runConditions_not_ok opt s _ _ (by simp) hfail
  · intro hrm
    have hfail : (f.isRemoving opt s).IsOK = false := by
      simp [StoreStateFilter.isRemoving, hrm, statusStoresRemoving, PlanStatus.IsOK]
    refine ⟨?_, ?_, ?_⟩ <;>
      · simp only [StoreStateFilter.anyConditionMatch, leaderTarget,
          regionTarget, scatterRegionTarget]
        exact runConditions_not_ok opt s _ _ (by simp) hfail
  · intro hdn
    have hfail : (f.isDown opt s).IsOK = false := by
      unfold StoreStateFilter.isDown
      rw [if_pos (by omega)]
      rfl
    refine ⟨?_, ?_, ?_, ?_⟩ <;>
      · simp only [StoreStateFilter.anyConditionMatch, leaderSource, leaderTarget,
          regionTarget, scatterRegionTarget]
        exact runConditions_not_ok opt s _ _ (by simp) hfail
  · intro hpl
    have hfail : (f.pauseLeaderTransfer opt s).IsOK = false := by
      simp [StoreStateFilter.pauseLeaderTransfer, hpl, statusStoreRejectLeader,
        PlanStatus.IsOK]
    refine ⟨?_, ?_⟩ <;>
      · simp only [StoreStateFilter.anyConditionMatch, leaderSource, leaderTarget]
        exact runConditions_not_ok opt s _ _ (by simp) hfail
  · intro hsl
    have hfail : (f.slowStoreEvicted opt s).IsOK = false := by
      simp [StoreStateFilter.slowStoreEvicted, hsl, statusStoreRejectLeader,
        PlanStatus.IsOK]
    simp only [StoreStateFilter.anyConditionMatch, leaderTarget]
    exact runConditions_not_ok opt s _ _ (by simp) hfail
  · intro hrj
    have hfail : (f.hasRejectLeaderProperty opt s).IsOK = false := by
      simp [StoreStateFilter.hasRejectLeaderProperty, hrj, statusStoreRejectLeader,
        PlanStatus.IsOK]
    simp only [StoreStateFilter.anyConditionMatch, leaderTarget]
    exact runConditions_not_ok opt s _ _ (by simp) hfail

/-- A store in every temporary bad state (busy, disconnected, over all
limits) but nominal on all permanent conditions. -/
def storeTempBad : StoreInfo :=
  { storeA with
    busy := true
    disconnected := true
    pendingPeerCount := 100
    sendingSnapCount := 100
    receivingSnapCount := 100
    availableAddPeer := false
    availableRemovePeer := false }

/-- A `StoreStateFilter` allowing temporary states, for both schedule kinds. -/
def ssfAllowTemp : StoreStateFilter :=
  { ActionScope := "test"
    TransferLeader := true
    MoveRegion := true
    ScatterRegion := false
    AllowTemporaryStates := true }

theorem storeStateFilter_allowTemporary_witness :
    ((storeTempBad.IsRemoved = false ∧ storeTempBad.IsRemoving = false ∧
        storeTempBad.DownTime ≤ optA.GetMaxStoreDownTime ∧
        storeTempBad.AllowLeaderTransfer = true ∧
        storeTempBad.EvictedAsSlowStore = false ∧
        optA.CheckRejectLeader storeTempBad.GetLabels = false) →
      (ssfAllowTemp.Source optA storeTempBad).IsOK = true ∧
        (ssfAllowTemp.Target optA storeTempBad).IsOK = true)
    ∧ (storeTempBad.IsRemoved = true →
        (ssfAllowTemp.anyConditionMatch leaderSource optA storeTempBad).IsOK = false ∧
        (ssfAllowTemp.anyConditionMatch leaderTarget optA storeTempBad).IsOK = false ∧
        (ssfAllowTemp.anyConditionMatch regionTarget optA storeTempBad).IsOK = false ∧
        (ssfAllowTemp.anyConditionMatch scatterRegionTarget optA storeTempBad).IsOK = false)
    ∧ (storeTempBad.IsRemoving = true →
        (ssfAllowTemp.anyConditionMatch leaderTarget optA storeTempBad).IsOK = false ∧
        (ssfAllowTemp.anyConditionMatch regionTarget optA storeTempBad).IsOK = false ∧
        (ssfAllowTemp.anyConditionMatch scatterRegionTarget optA storeTempBad).IsOK = false)
    ∧ (optA.GetMaxStoreDownTime < storeTempBad.DownTime →
        (ssfAllowTemp.anyConditionMatch leaderSource optA storeTempBad).IsOK = false ∧
        (ssfAllowTemp.anyConditionMatch leaderTarget optA storeTempBad).IsOK = false ∧
        (ssfAllowTemp.anyConditionMatch regionTarget optA storeTempBad).IsOK = false ∧
        (ssfAllowTemp.anyConditionMatch scatterRegionTarget optA storeTempBad).IsOK = false)
    ∧ (storeTempBad.AllowLeaderTransfer = false →
        (ssfAllowTemp.anyConditionMatch leaderSource optA storeTempBad).IsOK = false ∧
        (ssfAllowTemp.anyConditionMatch leaderTarget optA storeTempBad).IsOK = false)
    ∧ (storeTempBad.EvictedAsSlowStore = true →
        (ssfAllowTemp.anyConditionMatch leaderTarget optA storeTempBad).IsOK = false)
    ∧ (optA.CheckRejectLeader storeTempBad.GetLabels = true →
        (ssfAllowTemp.anyConditionMatch leaderTarget optA storeTempBad).IsOK = false) :=
  storeStateFilter_allowTemporary ssfAllowTemp optA storeTempBad rfl

/-- C8: an unrecognized scenario tag selects no conditions (the dispatch
falls through to an empty list, hence OK), and a `StoreStateFilter` with
neither `TransferLeader` nor `MoveRegion` set returns OK from both `Source`
and `Target` for every store and options. -/
theorem storeStateFilter_unknown_scenario_permissive
    (f : StoreStateFilter) (opt : PersistOptions) (s : StoreInfo) (typ : Nat)
    (htyp : 5 ≤ typ) (hT : f.TransferLeader = false) (hM : f.MoveRegion = false) :
    f.anyConditionMatch typ opt s = statusOK ∧
      f.Source opt s = statusOK ∧ f.Target opt s = statusOK := by
  refine ⟨?_, ?_, ?_⟩
  · obtain ⟨k, rfl⟩ : ∃ k, typ = k + 5 := ⟨typ - 5, by omega⟩
    rfl
  · simp [StoreStateFilter.Source, hT, hM, statusOK, PlanStatus.IsOK]
  · simp [StoreStateFilter.Target, hT, hM, statusOK, PlanStatus.IsOK]

/-- A `StoreStateFilter` with no scenario switch set. -/
def ssfNone : StoreStateFilter :=
  { ActionScope := "test"
    TransferLeader := false
    MoveRegion := false
    ScatterRegion := false
    AllowTemporaryStates := false }

theorem storeStateFilter_unknown_scenario_permissive_witness :
    ssfNone.anyConditionMatch 7 optA storeTempBad = statusOK ∧
      ssfNone.Source optA storeTempBad = statusOK ∧
      ssfNone.Target optA storeTempBad = statusOK :=
  storeStateFilter_unknown_scenario_permissive ssfNone optA storeTempBad 7
    (by decide) rfl rfl

/-! ### Rule-fit filters, placement safeguard factory -/

/-- Modelled from the spec: a region peer — store identity plus a peer id. -/
structure Peer where
  id : Nat
  storeId : Nat
  deriving DecidableEq, Repr

/-- Modelled from the spec: the region attributes the filters consume — an
ordered peer set and a designated leader store. -/
structure RegionInfo where
  peers : List Peer
  leaderStoreId : Nat
  deriving DecidableEq, Repr

/-- Modelled from the spec: `core.RegionInfo.GetStorePeer` — the region's
peer hosted on the given store, if any. -/
def RegionInfo.GetStorePeer (r : RegionInfo) (storeID : Nat) : Option Peer :=
  r.peers.find? (fun p => p.storeId == storeID)

/-- Modelled from the spec: `placement.RegionFit` is an opaque value whose
only consumed operation is the pure `Replace` query ("would replacing the
peer at the old store with the candidate still satisfy the fit?"). -/
structure RegionFit where
  Replace : Nat → StoreInfo → RegionInfo → Bool

/-- Modelled from the spec: the cluster topology view; the filters only use
the "all stores hosting a replica of a region" query. -/
structure BasicCluster where
  regionStores : RegionInfo → List StoreInfo

def BasicCluster.GetRegionStores (c : BasicCluster) (r : RegionInfo) : List StoreInfo :=
  c.regionStores r

/-- Modelled from the spec: the external rule-fit engine, exposing
`FitRegion(cluster, region) -> RegionFit`. -/
structure RuleManager where
  fitRegion : BasicCluster → RegionInfo → RegionFit

def RuleManager.FitRegion (m : RuleManager) (c : BasicCluster) (r : RegionInfo) : RegionFit :=
  m.fitRegion c r

/-- `ruleLeaderFitFilter`. -/
structure ruleLeaderFitFilter where
  scope : String
  cluster : BasicCluster
  ruleManager : RuleManager
  region : RegionInfo
  oldFit : RegionFit
  srcLeaderStoreID : Nat
  allowMoveLeader : Bool

/-- `newRuleLeaderFitFilter`: the baseline fit is computed once at
construction. -/
def newRuleLeaderFitFilter (scope : String) (cluster : BasicCluster)
    (ruleManager : RuleManager) (region : RegionInfo) (srcLeaderStoreID : Nat)
    (allowMoveLeader : Bool) : ruleLeaderFitFilter :=
  { scope := scope
    cluster := cluster
    ruleManager := ruleManager
    region := region
    oldFit := ruleManager.FitRegion cluster region
    srcLeaderStoreID := srcLeaderStoreID
    allowMoveLeader := allowMoveLeader }

def ruleLeaderFitFilter.Source (_ : ruleLeaderFitFilter) (_ : PersistOptions)
    (_ : StoreInfo) : PlanStatus := statusOK

/-- `ruleLeaderFitFilter.Target` (the log line is diagnostics, dropped). -/
def ruleLeaderFitFilter.Target (f : ruleLeaderFitFilter) (_ : PersistOptions)
    (store : StoreInfo) : PlanStatus :=
  let targetPeer := f.region.GetStorePeer store.GetID
  if targetPeer.isNone && !f.allowMoveLeader then statusStoreNotMatchRule
  else if f.oldFit.Replace f.srcLeaderStoreID store f.region then statusOK
  else statusStoreNotMatchRule

def ruleLeaderFitFilter.GetSourceStoreID (f : ruleLeaderFitFilter) : Nat :=
  f.srcLeaderStoreID

/-- C6: with `allowMoveLeader` false, a candidate holding no peer of the
region is rejected outright — the rule manager is universally quantified
and the result is the constant mismatch status, so the rule-fit engine is
never consulted; otherwise `Target` is OK exactly when the baseline fit's
`Replace` query succeeds for swapping the source leader store with the
candidate. -/
theorem ruleLeaderFitFilter_target_characterization
    (scope : String) (cluster : BasicCluster) (rm : RuleManager) (region : RegionInfo)
    (srcLeader : Nat) (allowMoveLeader : Bool) (opt : PersistOptions)
    (store : StoreInfo) :
    (allowMoveLeader = false → region.GetStorePeer store.GetID = none →
      (newRuleLeaderFitFilter scope cluster rm region srcLeader
          allowMoveLeader).Target opt store = statusStoreNotMatchRule)
    ∧ ((allowMoveLeader = true ∨ region.GetStorePeer store.GetID ≠ none) →
      (((newRuleLeaderFitFilter scope cluster rm region srcLeader
            allowMoveLeader).Target opt store).IsOK = true ↔
        (rm.FitRegion cluster region).Replace srcLeader store region = true)) := by
  constructor
  · intro hmv hpeer
    simp [ruleLeaderFitFilter.Target, newRuleLeaderFitFilter, hpeer, hmv,
      Option.isNone]
  · intro h
    have hcond :
        ((region.GetStorePeer store.GetID).isNone && !allowMoveLeader) = false := by
      rcases h with h | h
      · simp [h]
      · simp [Option.isNone_iff_eq_none, h]
    simp only [ruleLeaderFitFilter.Target, newRuleLeaderFitFilter]
    rw [if_neg (by simp [hcond])]
    by_cases hrep : (rm.FitRegion cluster region).Replace srcLeader store region = true
    · simp [RuleManager.FitRegion] at hrep ⊢
      simp [hrep, statusOK, PlanStatus.IsOK]
    · simp only [Bool.not_eq_true] at hrep
      simp [RuleManager.FitRegion] at hrep ⊢
      simp [hrep, statusStoreNotMatchRule, PlanStatus.IsOK]

/-- A cluster view and rule manager used by the concrete witnesses. -/
def clusterA : BasicCluster := { regionStores := fun _ => [storeA, storeB] }

def rmAlways : RuleManager :=
  { fitRegion := fun _ _ => { Replace := fun _ _ _ => true } }

def regionA : RegionInfo :=
  { peers := [{ id := 11, storeId := 1 }, { id := 12, storeId := 2 }]
    leaderStoreId := 1 }

theorem ruleLeaderFitFilter_target_characterization_witness :
    ((newRuleLeaderFitFilter "t" clusterA rmAlways regionA 1 false).Target optA
        storeB).IsOK = true ↔
      (rmAlways.FitRegion clusterA regionA).Replace 1 storeB regionA = true :=
  (ruleLeaderFitFilter_target_characterization "t" clusterA rmAlways regionA 1 false
      optA storeB).2 (Or.inr (by decide))

/-- `NewPlacementLeaderSafeguard`: the Go function returns the interface
value nil when placement rules are disabled; the embedding renders the
nil Filter as `Option.none`. -/
def NewPlacementLeaderSafeguard (scope : String) (opt : PersistOptions)
    (cluster : BasicCluster) (ruleManager : RuleManager) (region : RegionInfo)
    (sourceStore : StoreInfo) (allowMoveLeader : Bool) : Option ruleLeaderFitFilter :=
  if opt.IsPlacementRulesEnabled then
    some (newRuleLeaderFitFilter scope cluster ruleManager region sourceStore.GetID
      allowMoveLeader)
  else none

/-- C10: `NewPlacementLeaderSafeguard` yields no filter at all (the nil
Filter, `none`) exactly when placement rules are disabled, and yields the
rule-leader-fit filter built by `newRuleLeaderFitFilter` exactly when they
are enabled. -/
theorem newPlacementLeaderSafeguard_nil_iff (scope : String) (opt : PersistOptions)
    (cluster : BasicCluster) (rm : RuleManager) (region : RegionInfo)
    (sourceStore : StoreInfo) (allowMoveLeader : Bool) :
    (NewPlacementLeaderSafeguard scope opt cluster rm region sourceStore
        allowMoveLeader = none ↔ opt.IsPlacementRulesEnabled = false)
    ∧ (opt.IsPlacementRulesEnabled = true →
      NewPlacementLeaderSafeguard scope opt cluster rm region sourceStore
          allowMoveLeader =
        some (newRuleLeaderFitFilter scope cluster rm region sourceStore.GetID
          allowMoveLeader)) := by
  by_cases h : opt.IsPlacementRulesEnabled = true
  · constructor
    · simp [NewPlacementLeaderSafeguard, h]
    · intro _
      simp [NewPlacementLeaderSafeguard, h]
  · simp only [Bool.not_eq_true] at h
    constructor
    · simp [NewPlacementLeaderSafeguard, h]
    · intro hc
      rw [h] at hc
      exact absurd hc (by simp)

/-- Options with placement rules enabled, for the witness. -/
def optRules : PersistOptions := { optA with placementRulesEnabled := true }

theorem newPlacementLeaderSafeguard_nil_iff_witness :
    optRules.IsPlacementRulesEnabled = true ∧
      NewPlacementLeaderSafeguard "t" optRules clusterA rmAlways regionA storeA false =
        some (newRuleLeaderFitFilter "t" clusterA rmAlways regionA storeA.GetID false) :=
  ⟨rfl, (newPlacementLeaderSafeguard_nil_iff "t" optRules clusterA rmAlways regionA
      storeA false).2 rfl⟩

/-! ### IsolationFilter -/

/-- `isolationFilter`. -/
structure isolationFilter where
  scope : String
  locationLabels : List String
  constraintSet : List (List String)
  deriving DecidableEq, Repr

/-- `NewIsolationFilter`: the isolation level index defaults to 0 when the
level is not among the location labels; each replica store contributes the
tuple of its label values from level 0 down to that index. (The Go loop
indexes `locationLabels[0..idx]` directly; the embedding uses `take`, which
agrees whenever the index is in range — it always is when the label list is
non-empty, and the loop body is never reached for an empty replica list.) -/
def NewIsolationFilter (scope isolationLevel : String) (locationLabels : List String)
    (regionStores : List StoreInfo) : isolationFilter :=
  let isolationLevelIdx :=
    match locationLabels.findIdx? (fun l => l == isolationLevel) with
    | some i => i
    | none => 0
  { scope := scope
    locationLabels := locationLabels
    constraintSet := regionStores.map (fun rs =>
      (locationLabels.take (isolationLevelIdx + 1)).map (fun l => rs.GetLabelValue l)) }

def isolationFilter.Source (_ : isolationFilter) (_ : PersistOptions)
    (_ : StoreInfo) : PlanStatus := statusOK

/-- The per-constraint check of `isolationFilter.Target`: the candidate's
label value at every level of the constraint tuple equals the recorded
value. -/
def constraintMatches (locationLabels : List String) (store : StoreInfo)
    (cl : List String) : Bool :=
  cl.enum.all (fun p => store.GetLabelValue (locationLabels.getD p.1 "") == p.2)

/-- `isolationFilter.Target`: fail-closed on an empty constraint set,
otherwise reject when any non-empty recorded tuple fully matches the
candidate. -/
def isolationFilter.Target (f : isolationFilter) (_ : PersistOptions)
    (store : StoreInfo) : PlanStatus :=
  if f.constraintSet.isEmpty then statusStoreNotMatchIsolation
  else if f.constraintSet.any (fun cl =>
      !cl.isEmpty && constraintMatches f.locationLabels store cl) then
    statusStoreNotMatchIsolation
  else statusOK

/-- C7: an isolation filter built from an empty replica list has an empty
constraint set, so `Target` rejects every candidate (fail-closed) while
`Source` admits every store. -/
theorem isolationFilter_empty_fail_closed (scope isolationLevel : String)
    (locationLabels : List String) (opt : PersistOptions) (store : StoreInfo) :
    (NewIsolationFilter scope isolationLevel locationLabels []).Target opt store =
        statusStoreNotMatchIsolation ∧
      (NewIsolationFilter scope isolationLevel locationLabels []).Source opt store =
        statusOK :=
  ⟨rfl, rfl⟩

/-! ### SpecialUseFilter -/

/-- Modelled from the spec: the label-constraint operators of the generic
label-constraint evaluator. -/
inductive LabelConstraintOp where
  | In
  | NotIn
  | Exists
  | NotExists
  deriving DecidableEq, Repr

/-- `placement.LabelConstraint`. -/
structure LabelConstraint where
  Key : String
  Op : LabelConstraintOp
  Values : List String
  deriving DecidableEq, Repr

/-- Modelled from the spec: `placement.LabelConstraint.MatchStore` — "in":
the store's value for the key is among `Values`; "not in": it is not;
"exists": the store carries the label key; "not exists": it does not. -/
def LabelConstraint.MatchStore (c : LabelConstraint) (store : StoreInfo) : Bool :=
  match c.Op with
  | .In => c.Values.contains (store.GetLabelValue c.Key)
  | .NotIn => !c.Values.contains (store.GetLabelValue c.Key)
  | .Exists => (store.labels.lookup c.Key).isSome
  | .NotExists => (store.labels.lookup c.Key).isNone

def SpecialUseKey : String := "specialUse"
def SpecialUseHotRegion : String := "hotRegion"
def SpecialUseReserved : String := "reserved"
def allSpecialUses : List String := [SpecialUseHotRegion, SpecialUseReserved]

/-- `specialUseFilter`. -/
structure specialUseFilter where
  scope : String
  constraint : LabelConstraint

/-- `NewSpecialUseFilter`: constrain on every special use not explicitly
allowed (`slice.NoneOf` over the allow list). -/
def NewSpecialUseFilter (scope : String) (allowUses : List String) : specialUseFilter :=
  let values := allSpecialUses.filter (fun v => allowUses.all (fun u => u != v))
  { scope := scope
    constraint := { Key := SpecialUseKey, Op := .In, Values := values } }

def specialUseFilter.Source (f : specialUseFilter) (opt : PersistOptions)
    (store : StoreInfo) : PlanStatus :=
  if store.IsLowSpace opt.GetLowSpaceRatio || !f.constraint.MatchStore store then
    statusOK
  else statusStoreNotMatchRule

def specialUseFilter.Target (f : specialUseFilter) (_ : PersistOptions)
    (store : StoreInfo) : PlanStatus :=
  if !f.constraint.MatchStore store then statusOK else statusStoreNotMatchRule

/-- C9: a store matching the special-use constraint passes `Source` exactly
when it is low on space and is always rejected by `Target`; a store not
matching the constraint passes both directions. -/
theorem specialUseFilter_characterization (scope : String) (allowUses : List String)
    (opt : PersistOptions) (store : StoreInfo) :
    ((NewSpecialUseFilter scope allowUses).constraint.MatchStore store = true →
      ((((NewSpecialUseFilter scope allowUses).Source opt store).IsOK = true ↔
          store.IsLowSpace opt.GetLowSpaceRatio = true) ∧
        (((NewSpecialUseFilter scope allowUses).Target opt store).IsOK = false)))
    ∧ ((NewSpecialUseFilter scope allowUses).constraint.MatchStore store = false →
      (((NewSpecialUseFilter scope allowUses).Source opt store).IsOK = true ∧
        ((NewSpecialUseFilter scope allowUses).Target opt store).IsOK = true)) := by
  constructor
  · intro hmatch
    constructor
    · by_cases hlow : store.IsLowSpace opt.GetLowSpaceRatio = true
      · simp [specialUseFilter.Source, hmatch, hlow, statusOK, PlanStatus.IsOK]
      · simp only [Bool.not_eq_true] at hlow
        simp [specialUseFilter.Source, hmatch, hlow, statusStoreNotMatchRule,
          PlanStatus.IsOK]
    · simp [specialUseFilter.Target, hmatch, statusStoreNotMatchRule, PlanStatus.IsOK]
  · intro hmatch
    constructor
    · simp [specialUseFilter.Source, hmatch, statusOK, PlanStatus.IsOK]
    · simp [specialUseFilter.Target, hmatch, statusOK, PlanStatus.IsOK]

/-- A special-use (hot-region) store that is also low on space with respect
to `optA`'s low-space ratio. -/
def storeSpecial : StoreInfo :=
  { storeA with labels := [(SpecialUseKey, SpecialUseHotRegion)], usedRatio := 1 }

theorem specialUseFilter_characterization_witness :
    (NewSpecialUseFilter "t" []).constraint.MatchStore storeSpecial = true ∧
      ((((NewSpecialUseFilter "t" []).Source optA storeSpecial).IsOK = true ↔
          storeSpecial.IsLowSpace optA.GetLowSpaceRatio = true) ∧
        (((NewSpecialUseFilter "t" []).Target optA storeSpecial).IsOK = false)) :=
  ⟨by decide, (specialUseFilter_characterization "t" [] optA storeSpecial).1 (by decide)⟩

end PD
